import Mathlib

/-!
Shallow embedding of the `alpha` repository's policy-hardening core:

* `src/src/alpha_agent/guardrails.py` — `enforce_guardrails` (the spec's `sanitize`),
* `src/src/alpha_agent/diff.py` — `compute_policy_diff` (the spec's `diff`),
* `src/src/alpha_agent/rollout.py` — `evaluate_stage` and `orchestrate_rollout`
  (the spec's `executeStage`).

Python `float` metric values and thresholds are modelled as exact rationals
(`ℚ`); the decimal literals `0.05`, `0.02`, `0.01` of the source become
`5/100`, `2/100`, `1/100`.  Python dictionaries whose iteration order matters
(`required_conditions`, statement `Condition` maps, metrics mappings) are
modelled as association lists in insertion order.  The IAM / CloudWatch
collaborators reached through `boto3` are modelled by an environment record
saying whether each external call succeeds, and every external call made by
the controller is recorded in an event trace.
-/

/-- A JSON value in an `Action` / `Resource` slot: either a bare string or a
list of strings (the two shapes the code's `_ensure_list` accepts). -/
inductive StrVal where
  | str (s : String)
  | list (l : List String)
deriving Repr, DecidableEq

/-- One raw policy statement dictionary, restricted to the keys the code
reads: `Action`, `Resource` (both optional, string or list) and `Condition`
(a mapping, kept in insertion order; values are modelled as strings). -/
structure Stmt where
  action : Option StrVal
  resource : Option StrVal
  condition : List (String × String)
deriving Repr, DecidableEq

/-- `PolicyDocument` model (models.py): a version string and a list of raw
statement dictionaries. -/
structure PolicyDocument where
  version : String
  statement : List Stmt
deriving Repr, DecidableEq

/-- `GuardrailViolation` model (models.py). -/
structure GuardrailViolation where
  code : String
  message : String
  path : Option String
deriving Repr, DecidableEq

def WILDCARD_ACTION_VIOLATION : String := "WILDCARD_ACTION"

def MISSING_CONDITION_VIOLATION : String := "MISSING_CONDITION"

def UNSUPPORTED_SERVICE_VIOLATION : String := "UNSUPPORTED_SERVICE"

/-- `_ensure_list` composed with `statement.get(key, [])`: a missing key
yields `[]`, a bare string becomes a one-element list, a list stays. -/
def ensure_list : Option StrVal → List String
  | none => []
  | some (.str s) => [s]
  | some (.list l) => l

/-- Python's `s.endswith(suffix)`, implemented over the character list so
that it evaluates inside the kernel. -/
def endswith (s suffix : String) : Bool :=
  suffix.data.isSuffixOf s.data

/-- Python's `":" in action` (single-character substring test), implemented
over the character list. -/
def has_colon (action : String) : Bool :=
  action.data.contains ':'

/-- Python's `action.split(":")[0]`: the characters before the first colon
(the whole string when there is none), implemented over the character
list. -/
def service_of (action : String) : String :=
  ⟨action.data.takeWhile (fun c => !(c == ':'))⟩

/-- The body of `enforce_guardrails`' per-statement loop, at statement index
`idx`.  Faithful to the source, including the two places where the code
re-reads the local variable `actions` (captured before any removal) instead
of the statement's current `Action` value: the blocked-action removals filter
the original `actions` list, and the service-prefix set is computed from the
original `actions` list.  The Python set formatting inside the
UNSUPPORTED_SERVICE message is abstracted to a fixed string. -/
def processStatement (blocked_actions : List String)
    (required_conditions : List (String × String))
    (disallowed_services : List String)
    (idx : Nat) (stmt : Stmt) : Stmt × List GuardrailViolation :=
  let actions := ensure_list stmt.action
  let resources := ensure_list stmt.resource
  let wildcardHit := actions.any (fun action => action == "*" || endswith action ":*")
  let v1 : List GuardrailViolation :=
    if wildcardHit then
      [⟨WILDCARD_ACTION_VIOLATION, "Statements cannot include wildcard actions.",
        some ("statement[" ++ toString idx ++ "].Action")⟩]
    else []
  let a1 : Option StrVal :=
    if wildcardHit then
      some (.list (actions.filter (fun action => !(action == "*" || action == "*:*"))))
    else stmt.action
  let st2 := blocked_actions.foldl
    (fun (st : Option StrVal × List GuardrailViolation) blocked =>
      if actions.contains blocked then
        (some (.list (actions.filter (fun a => !(a == blocked)))),
         st.2 ++ [⟨WILDCARD_ACTION_VIOLATION,
                   "Action " ++ blocked ++ " is blocked by policy.",
                   some ("statement[" ++ toString idx ++ "].Action")⟩])
      else st)
    (a1, v1)
  let services :=
    (actions.filter (fun action => has_colon action)).map
      (fun action => service_of action)
  let serviceHits := services.filter (fun s => disallowed_services.contains s)
  let v3 : List GuardrailViolation :=
    if !disallowed_services.isEmpty && !serviceHits.isEmpty then
      [⟨UNSUPPORTED_SERVICE_VIOLATION, "Service(s) not allowed.",
        some ("statement[" ++ toString idx ++ "]")⟩]
    else []
  let st4 := required_conditions.foldl
    (fun (st : List (String × String) × List GuardrailViolation) kv =>
      if (st.1.lookup kv.1).isSome then st
      else (st.1 ++ [kv],
            st.2 ++ [⟨MISSING_CONDITION_VIOLATION,
                      "Condition " ++ kv.1 ++ " must be present.",
                      some ("statement[" ++ toString idx ++ "].Condition")⟩]))
    (stmt.condition, ([] : List GuardrailViolation))
  let r5 : Option StrVal :=
    if resources.contains "*" && decide (resources.length > 1) then
      some (.list (resources.filter (fun r => !(r == "*"))))
    else stmt.resource
  (⟨st2.1, r5, st4.1⟩, st2.2 ++ v3 ++ st4.2)

/-- The `for idx, statement in enumerate(...)` loop: process each statement
at its index, accumulating the updated statements (in order) and the
violations (in emission order). -/
def processStatements (blocked_actions : List String)
    (required_conditions : List (String × String))
    (disallowed_services : List String) :
    Nat → List Stmt → List Stmt × List GuardrailViolation
  | _, [] => ([], [])
  | idx, s :: rest =>
    let p := processStatement blocked_actions required_conditions disallowed_services idx s
    let r := processStatements blocked_actions required_conditions disallowed_services
      (idx + 1) rest
    (p.1 :: r.1, p.2 ++ r.2)

/-- `enforce_guardrails` (guardrails.py): the spec's `sanitize`.  Returns the
updated policy document (same version string) and the discovered
violations. -/
def enforce_guardrails (policy : PolicyDocument) (blocked_actions : List String)
    (required_conditions : List (String × String))
    (disallowed_services : List String) :
    PolicyDocument × List GuardrailViolation :=
  let r := processStatements blocked_actions required_conditions disallowed_services
    0 policy.statement
  (⟨policy.version, r.1⟩, r.2)

/-- The per-statement action extraction of `_normalize_actions`
(diff.py): `statement.get("Action") or []` makes every falsy value (missing
key, empty string, empty list) the empty list; a bare string becomes a
one-element list. -/
def statementActions (a : Option StrVal) : List String :=
  match a with
  | none => []
  | some (.str s) => if s == "" then [] else [s]
  | some (.list l) => l

/-- `_normalize_actions` (diff.py): the set of action strings appearing in a
sequence of statements. -/
def normalize_actions (statements : List Stmt) : Finset String :=
  statements.foldl (fun acc s => acc ∪ (statementActions s.action).toFinset) ∅

/-- The `existing_actions` computation of `compute_policy_diff`: an absent
existing policy is treated as the empty action set. -/
def existing_action_set : Option PolicyDocument → Finset String
  | some existing => normalize_actions existing.statement
  | none => ∅

/-- `PolicyDiff` model (models.py), restricted to the fields
`compute_policy_diff` fills. -/
structure PolicyDiff where
  existing_policy : Option PolicyDocument
  proposed_policy : PolicyDocument
  added_actions : List String
  removed_actions : List String
  change_summary : String
deriving Repr, DecidableEq

/-- `compute_policy_diff` (diff.py): the spec's `diff`.  The added/removed
sets are emitted as lexicographically sorted lists, Python's `sorted`. -/
def compute_policy_diff (existing : Option PolicyDocument)
    (proposed : PolicyDocument) : PolicyDiff :=
  let existing_actions := existing_action_set existing
  let proposed_actions := normalize_actions proposed.statement
  let added := (proposed_actions \ existing_actions).sort (· ≤ ·)
  let removed := (existing_actions \ proposed_actions).sort (· ≤ ·)
  let summary_parts : List String :=
    (if !added.isEmpty then ["+" ++ toString added.length ++ " actions"] else []) ++
    (if !removed.isEmpty then ["-" ++ toString removed.length ++ " actions"] else [])
  let summary_parts :=
    if summary_parts.isEmpty then ["No action-level changes detected"] else summary_parts
  { existing_policy := existing
    proposed_policy := proposed
    added_actions := added
    removed_actions := removed
    change_summary := String.intercalate ", " summary_parts }

/-- `RolloutStage` enum (models.py). -/
inductive RolloutStage where
  | dryRun
  | sandbox
  | canary
  | target
deriving Repr, DecidableEq

/-- The `value` of a `RolloutStage` member. -/
def RolloutStage.value : RolloutStage → String
  | .dryRun => "dry-run"
  | .sandbox => "sandbox"
  | .canary => "canary"
  | .target => "target"

/-- `RolloutOutcome` model (models.py), with metric values as rationals. -/
structure RolloutOutcome where
  stage : RolloutStage
  succeeded : Bool
  error : Option String
  metrics : List (String × ℚ)
deriving Repr, DecidableEq

/-- `evaluate_stage` (rollout.py): `metrics.get("error_rate", 0)` compared
strictly against the stage threshold; any stage outside the three checks
(i.e. dry-run) falls through to `True`. -/
def evaluate_stage (stage : RolloutStage) (metrics : List (String × ℚ)) : Bool :=
  let error_rate := (metrics.lookup "error_rate").getD 0
  match stage with
  | .sandbox => decide (error_rate < 5/100)
  | .canary => decide (error_rate < 2/100)
  | .target => decide (error_rate < 1/100)
  | .dryRun => true

/-- One call made against the IAM identity store (the `boto3` client), with
the role name, the inline policy name, and whether the call succeeded. -/
inductive CallEvent where
  | putRolePolicy (roleName : String) (policyName : String) (ok : Bool)
  | deleteRolePolicy (roleName : String) (policyName : String) (ok : Bool)
deriving Repr, DecidableEq

/-- The external collaborators of `orchestrate_rollout`: whether the IAM
`put_role_policy` call succeeds, what the injected `metrics_collector`
returns (a metrics mapping, or a raised exception's message), and whether
the IAM `delete_role_policy` call succeeds. -/
structure IamEnv where
  putOk : Bool
  collectorResult : Except String (List (String × ℚ))
  deleteOk : Bool

/-- `_role_name_from_arn` (rollout.py): `role_arn.split("/")[-1]`, the
characters after the last slash (the whole string when there is none),
implemented over the character list. -/
def role_name_from_arn (role_arn : String) : String :=
  ⟨(role_arn.data.reverse.takeWhile (fun c => !(c == '/'))).reverse⟩

/-- `stage_policy_version` (rollout.py): attach a fresh inline policy named
`ALPHAManaged{int(time.time())}` (the clock value is the `now` argument
here) to the role; a `ClientError` from `put_role_policy` becomes a raised
`RolloutError`.  Returns the result (policy name, or error message) and the
identity-store call made. -/
def stage_policy_version (env : IamEnv) (role_arn : String) (now : Nat) :
    Except String String × List CallEvent :=
  let role_name := role_name_from_arn role_arn
  let policy_name := "ALPHAManaged" ++ toString now
  if env.putOk then
    (.ok policy_name, [.putRolePolicy role_name policy_name true])
  else
    (.error ("Failed to stage policy for " ++ role_name ++ ": ClientError"),
     [.putRolePolicy role_name policy_name false])

/-- `delete_staged_policy` (rollout.py): detach the named inline policy; a
`ClientError` from `delete_role_policy` becomes a raised `RolloutError`. -/
def delete_staged_policy (env : IamEnv) (role_arn : String)
    (policy_name : String) : Except String Unit × List CallEvent :=
  let role_name := role_name_from_arn role_arn
  if env.deleteOk then
    (.ok (), [.deleteRolePolicy role_name policy_name true])
  else
    (.error ("Failed to delete policy " ++ policy_name ++ ": ClientError"),
     [.deleteRolePolicy role_name policy_name false])

/-- `orchestrate_rollout` (rollout.py): the spec's `executeStage`.

Mirrors the source control flow exactly: `stage_policy_version` runs before
the `try`, so its error propagates with no detach; inside the `try`, a
collector exception or a failed health check is caught by the
`except Exception` handler, which returns an outcome with `succeeded=False`,
`error=str(err)` and empty metrics; the `finally` block always runs
`delete_staged_policy`, and if that raises, its error replaces the pending
return value.  The result is paired with the trace of identity-store calls
made during the invocation.  The Python formatting of the metrics dict
inside the health-check error message is abstracted away. -/
def orchestrate_rollout (env : IamEnv) (role_arn : String)
    (policy_document : PolicyDocument) (stage : RolloutStage) (now : Nat) :
    Except String RolloutOutcome × List CallEvent :=
  match stage_policy_version env role_arn now with
  | (.error e, evs) => (.error e, evs)
  | (.ok policy_name, evs) =>
    let body : RolloutOutcome :=
      match env.collectorResult with
      | .error err =>
        { stage := stage, succeeded := false, error := some err, metrics := [] }
      | .ok metrics =>
        if evaluate_stage stage metrics then
          { stage := stage, succeeded := true, error := none, metrics := metrics }
        else
          { stage := stage, succeeded := false,
            error := some ("Stage " ++ stage.value ++ " failed health checks"),
            metrics := [] }
    match delete_staged_policy env role_arn policy_name with
    | (.error e, devs) => (.error e, evs ++ devs)
    | (.ok _, devs) => (.ok body, evs ++ devs)

/-- Whether an identity-store call is a `put_role_policy` invocation. -/
def CallEvent.isPut : CallEvent → Bool
  | .putRolePolicy _ _ _ => true
  | .deleteRolePolicy _ _ _ => false

/-- Whether an identity-store call is a `delete_role_policy` invocation. -/
def CallEvent.isDelete : CallEvent → Bool
  | .putRolePolicy _ _ _ => false
  | .deleteRolePolicy _ _ _ => true

/-- The inline policy names still attached after a trace of identity-store
calls: a successful put attaches its policy name, a successful delete
removes it, failed calls change nothing. -/
def attachedAfter (evs : List CallEvent) : List String :=
  evs.foldl
    (fun acc e =>
      match e with
      | .putRolePolicy _ n true => acc ++ [n]
      | .deleteRolePolicy _ n true => acc.filter (fun m => !(m == n))
      | _ => acc)
    []

/-- Example document with no statements, used as a rollout payload. -/
def egDoc : PolicyDocument := ⟨"2012-10-17", []⟩

/-- Example statement whose only action is the service wildcard `s3:*`. -/
def stmtS3 : Stmt := ⟨some (.list ["s3:*"]), none, []⟩

/-- Example policy holding `stmtS3`. -/
def polS3 : PolicyDocument := ⟨"2012-10-17", [stmtS3]⟩

/-- Example statement holding the full wildcard and a blockable action. -/
def stmtWB : Stmt := ⟨some (.list ["*", "iam:PassRole"]), none, []⟩

/-- Example policy holding `stmtWB`. -/
def polWB : PolicyDocument := ⟨"2012-10-17", [stmtWB]⟩

/-- Example statement holding two blockable actions. -/
def stmtBB : Stmt := ⟨some (.list ["iam:PassRole", "iam:DeleteUser"]), none, []⟩

/-- Example policy holding `stmtBB`. -/
def polBB : PolicyDocument := ⟨"2012-10-17", [stmtBB]⟩

/-- Example statement whose only action is the bare wildcard. -/
def stmtStar : Stmt := ⟨some (.list ["*"]), some (.str "*"), []⟩

/-- Example policy holding `stmtStar`. -/
def polStar : PolicyDocument := ⟨"2012-10-17", [stmtStar]⟩

/-- Environment in which every collaborator call succeeds and the collector
reports a zero error rate. -/
def envOk : IamEnv := ⟨true, .ok [("error_rate", 0)], true⟩

/-- Environment in which the metrics collector raises and both IAM calls
succeed. -/
def envCollectorDown : IamEnv := ⟨true, .error "collector unreachable", true⟩

lemma processStatements_length (b : List String) (rc : List (String × String))
    (ds : List String) :
    ∀ (idx : Nat) (l : List Stmt),
      (processStatements b rc ds idx l).1.length = l.length := by
  intro idx l
  induction l generalizing idx with
  | nil => rfl
  | cons s rest ih => simp [processStatements, ih]

lemma processStatements_getElem (b : List String) (rc : List (String × String))
    (ds : List String) :
    ∀ (l : List Stmt) (idx i : Nat) (stmt : Stmt), l[i]? = some stmt →
      (processStatements b rc ds idx l).1[i]?
        = some (processStatement b rc ds (idx + i) stmt).1 := by
  intro l
  induction l with
  | nil => intro idx i stmt h; simp at h
  | cons s rest ih =>
    intro idx i stmt h
    have hcons : (processStatements b rc ds idx (s :: rest)).1
        = (processStatement b rc ds idx s).1
          :: (processStatements b rc ds (idx + 1) rest).1 := rfl
    cases i with
    | zero =>
      simp only [List.getElem?_cons_zero, Option.some.injEq] at h
      subst h
      rw [hcons, List.getElem?_cons_zero]
      rfl
    | succ n =>
      simp only [List.getElem?_cons_succ] at h
      have ihv := ih (idx + 1) n stmt h
      have heq : idx + 1 + n = idx + (n + 1) := by omega
      rw [heq] at ihv
      rw [hcons, List.getElem?_cons_succ]
      exact ihv

/-- C6: stage health evaluation compares `error_rate` against the
stage-specific threshold with strict less-than (Sandbox 5/100, Canary 2/100,
Target 1/100), so an error rate exactly at the threshold fails: Canary at
2/100 yields false and Canary at 19999/1000000 yields true. -/
theorem evaluate_stage_strict_thresholds :
    (∀ e : ℚ,
      (evaluate_stage .sandbox [("error_rate", e)] = true ↔ e < 5/100) ∧
      (evaluate_stage .canary [("error_rate", e)] = true ↔ e < 2/100) ∧
      (evaluate_stage .target [("error_rate", e)] = true ↔ e < 1/100)) ∧
    evaluate_stage .canary [("error_rate", 2/100)] = false ∧
    evaluate_stage .canary [("error_rate", 19999/1000000)] = true := by
  refine ⟨fun e => ⟨?_, ?_, ?_⟩, ?_, ?_⟩ <;>
    simp [evaluate_stage, List.lookup] <;> norm_num

/-- C10: a metrics mapping without an `error_rate` key evaluates as error
rate 0 and passes every stage's health check, and a DryRun evaluation
returns true for every metrics mapping. -/
theorem evaluate_stage_missing_error_rate :
    (∀ (stage : RolloutStage) (metrics : List (String × ℚ)),
      metrics.lookup "error_rate" = none → evaluate_stage stage metrics = true) ∧
    (∀ metrics : List (String × ℚ), evaluate_stage .dryRun metrics = true) := by
  constructor
  · intro stage metrics h
    cases stage <;> simp [evaluate_stage, h]
  · intro metrics
    rfl

/-- Witness for C10 at the singleton mapping `latency = 1` and the empty
mapping. -/
theorem evaluate_stage_missing_error_rate_witness :
    [(("latency" : String), (1 : ℚ))].lookup "error_rate" = none ∧
    evaluate_stage .sandbox [("latency", 1)] = true ∧
    evaluate_stage .dryRun [] = true :=
  ⟨by decide,
   evaluate_stage_missing_error_rate.1 .sandbox [("latency", 1)] (by decide),
   evaluate_stage_missing_error_rate.2 []⟩

/-- C7: the diff engine computes `added_actions` as the set difference
proposed minus existing and `removed_actions` as existing minus proposed
(an absent existing policy counting as the empty set); hence
`diff(p, p)` has empty added and removed lists and `diff(null, p)` has
added equal to the actions of `p` and removed empty. -/
theorem compute_policy_diff_set_difference :
    (∀ (existing : Option PolicyDocument) (proposed : PolicyDocument),
      (compute_policy_diff existing proposed).added_actions.toFinset
          = normalize_actions proposed.statement \ existing_action_set existing ∧
      (compute_policy_diff existing proposed).removed_actions.toFinset
          = existing_action_set existing \ normalize_actions proposed.statement) ∧
    (∀ p : PolicyDocument,
      (compute_policy_diff (some p) p).added_actions = [] ∧
      (compute_policy_diff (some p) p).removed_actions = []) ∧
    (∀ p : PolicyDocument,
      (compute_policy_diff none p).added_actions.toFinset
          = normalize_actions p.statement ∧
      (compute_policy_diff none p).removed_actions = []) := by
  refine ⟨fun existing proposed => ⟨?_, ?_⟩, fun p => ⟨?_, ?_⟩, fun p => ⟨?_, ?_⟩⟩ <;>
    simp [compute_policy_diff, existing_action_set, Finset.sort_toFinset,
      Finset.sort_empty, Finset.sdiff_self, Finset.sdiff_empty, Finset.empty_sdiff]

/-- C8: sanitize preserves the number and index order of statements — the
output has exactly one statement per input statement, at the same index,
namely the per-statement transform of that input statement (so a statement
whose action list becomes empty is retained, never deleted). -/
theorem enforce_guardrails_preserves_statements
    (p : PolicyDocument) (blocked_actions : List String)
    (required_conditions : List (String × String))
    (disallowed_services : List String) :
    (enforce_guardrails p blocked_actions required_conditions
        disallowed_services).1.statement.length = p.statement.length ∧
    ∀ (i : Nat) (stmt : Stmt), p.statement[i]? = some stmt →
      (enforce_guardrails p blocked_actions required_conditions
          disallowed_services).1.statement[i]?
        = some (processStatement blocked_actions required_conditions
            disallowed_services i stmt).1 := by
  constructor
  · exact processStatements_length blocked_actions required_conditions
      disallowed_services 0 p.statement
  · intro i stmt h
    have hv := processStatements_getElem blocked_actions required_conditions
      disallowed_services p.statement 0 i stmt h
    rw [Nat.zero_add] at hv
    exact hv

/-- Witness for C8 at a one-statement policy whose single action is the bare
wildcard: the statement survives sanitization at index 0 with an empty
action list. -/
theorem enforce_guardrails_preserves_statements_witness :
    (enforce_guardrails polStar [] [] []).1.statement.length
        = polStar.statement.length ∧
    (enforce_guardrails polStar [] [] []).1.statement[0]?
        = some (processStatement [] [] [] 0 stmtStar).1 ∧
    (processStatement [] [] [] 0 stmtStar).1.action = some (.list []) :=
  ⟨(enforce_guardrails_preserves_statements polStar [] [] []).1,
   (enforce_guardrails_preserves_statements polStar [] [] []).2 0 stmtStar (by decide),
   by decide⟩

/-- C3: refuted on the code — sanitizing a statement whose only action is
the service wildcard `s3:*` emits a WILDCARD_ACTION violation but leaves
`s3:*` in the output, because the removal filter only drops the literal
strings `*` and `*:*` while the detection predicate matches any action
ending in `:*`. -/
theorem wildcard_service_action_retained :
    (enforce_guardrails polS3 [] [] []).1.statement.map Stmt.action
        = [some (.list ["s3:*"])] ∧
    (enforce_guardrails polS3 [] [] []).2.map GuardrailViolation.code
        = [WILDCARD_ACTION_VIOLATION] := by
  constructor <;> rfl

/-- C4: refuted on the code — blocked-action removal filters the action
list captured before step 1, so removing `iam:PassRole` from a statement
whose original actions were `["*", "iam:PassRole"]` reintroduces the
wildcard `*` removed in step 1, and with two blocked actions present the
second removal reintroduces the first blocked action, which therefore
survives in the sanitized output. -/
theorem blocked_action_removal_uses_stale_list :
    (enforce_guardrails polWB ["iam:PassRole"] [] []).1.statement.map Stmt.action
        = [some (.list ["*"])] ∧
    (enforce_guardrails polBB ["iam:PassRole", "iam:DeleteUser"] [] []).1.statement.map
        Stmt.action = [some (.list ["iam:PassRole"])] := by
  constructor <;> rfl

/-- C5: refuted on the code — sanitizing the sanitized output of `polWB`
(whose first pass yields the action list `["*"]`) a second time changes the
policy again (the action list becomes `[]`) and the second pass emits a
WILDCARD_ACTION violation, so sanitize is not idempotent after one pass and
the second-pass violations are not limited to UNSUPPORTED_SERVICE. -/
theorem enforce_guardrails_not_idempotent :
    (enforce_guardrails (enforce_guardrails polWB ["iam:PassRole"] [] []).1
        ["iam:PassRole"] [] []).1
      ≠ (enforce_guardrails polWB ["iam:PassRole"] [] []).1 ∧
    (enforce_guardrails (enforce_guardrails polWB ["iam:PassRole"] [] []).1
        ["iam:PassRole"] [] []).2.map GuardrailViolation.code
      = [WILDCARD_ACTION_VIOLATION] := by
  constructor
  · decide
  · rfl

/-- C1: whenever the attach step succeeds, `orchestrate_rollout` invokes
`delete_staged_policy` exactly once before returning — on health success,
health failure and collector exception alike (the environment quantifies
over all of these) — it invokes the attach exactly once, and whenever the
detach call also succeeds no trial policy remains attached afterwards. -/
theorem orchestrate_rollout_detach_exactly_once
    (env : IamEnv) (role_arn : String) (doc : PolicyDocument)
    (stage : RolloutStage) (now : Nat) (h : env.putOk = true) :
    ((orchestrate_rollout env role_arn doc stage now).2.filter
        CallEvent.isDelete).length = 1 ∧
    ((orchestrate_rollout env role_arn doc stage now).2.filter
        CallEvent.isPut).length = 1 ∧
    (env.deleteOk = true →
      attachedAfter (orchestrate_rollout env role_arn doc stage now).2 = []) := by
  cases hd : env.deleteOk <;>
    simp [orchestrate_rollout, stage_policy_version, delete_staged_policy, h, hd,
      attachedAfter, CallEvent.isDelete, CallEvent.isPut]

/-- Witness for C1 in the all-succeeding environment at the sandbox stage. -/
theorem orchestrate_rollout_detach_exactly_once_witness :
    ((orchestrate_rollout envOk "arn:aws:iam::123456789012:role/demo" egDoc
        .sandbox 0).2.filter CallEvent.isDelete).length = 1 ∧
    ((orchestrate_rollout envOk "arn:aws:iam::123456789012:role/demo" egDoc
        .sandbox 0).2.filter CallEvent.isPut).length = 1 ∧
    attachedAfter (orchestrate_rollout envOk "arn:aws:iam::123456789012:role/demo"
        egDoc .sandbox 0).2 = [] :=
  ⟨(orchestrate_rollout_detach_exactly_once envOk "arn:aws:iam::123456789012:role/demo"
      egDoc .sandbox 0 rfl).1,
   (orchestrate_rollout_detach_exactly_once envOk "arn:aws:iam::123456789012:role/demo"
      egDoc .sandbox 0 rfl).2.1,
   (orchestrate_rollout_detach_exactly_once envOk "arn:aws:iam::123456789012:role/demo"
      egDoc .sandbox 0 rfl).2.2 rfl⟩

/-- C2 counterexample: when the injected collector raises, the controller
does not fail open to an `error_rate = 0` success — the outcome at this
concrete input has `succeeded = false` with the collector's error message
and empty metrics. -/
theorem collector_error_fails_closed_cex :
    (orchestrate_rollout envCollectorDown "arn:aws:iam::123456789012:role/demo"
        egDoc .sandbox 0).1
      = .ok ⟨.sandbox, false, some "collector unreachable", []⟩ := by
  rfl

/-- C2 as amended: when the collector raises and both IAM calls succeed,
the controller catches the exception and returns an outcome with
`succeeded = false`, the exception message as `error` and empty metrics
(it fails closed rather than substituting `error_rate = 0`), and the detach
is still invoked exactly once. -/
theorem collector_error_fails_closed
    (env : IamEnv) (role_arn : String) (doc : PolicyDocument)
    (stage : RolloutStage) (now : Nat) (err : String)
    (hc : env.collectorResult = .error err) (hp : env.putOk = true)
    (hd : env.deleteOk = true) :
    (orchestrate_rollout env role_arn doc stage now).1
        = .ok ⟨stage, false, some err, []⟩ ∧
    ((orchestrate_rollout env role_arn doc stage now).2.filter
        CallEvent.isDelete).length = 1 := by
  simp [orchestrate_rollout, stage_policy_version, delete_staged_policy, hp, hd, hc,
    CallEvent.isDelete]

/-- Witness for the amended C2 in the collector-down environment. -/
theorem collector_error_fails_closed_witness :
    (orchestrate_rollout envCollectorDown "arn:aws:iam::123456789012:role/demo"
        egDoc .canary 1).1
      = .ok ⟨.canary, false, some "collector unreachable", []⟩ ∧
    ((orchestrate_rollout envCollectorDown "arn:aws:iam::123456789012:role/demo"
        egDoc .canary 1).2.filter CallEvent.isDelete).length = 1 :=
  collector_error_fails_closed envCollectorDown "arn:aws:iam::123456789012:role/demo"
    egDoc .canary 1 "collector unreachable" rfl rfl rfl

/-- C9 counterexample: a DryRun invocation does mutate the live identity —
in the all-succeeding environment the call trace contains a successful
`put_role_policy` (trial-policy attach) invocation. -/
theorem dryrun_mutates_identity_cex :
    ((orchestrate_rollout envOk "arn:aws:iam::123456789012:role/demo" egDoc
        .dryRun 0).2.filter CallEvent.isPut).length = 1 ∧
    CallEvent.putRolePolicy "demo" "ALPHAManaged0" true
      ∈ (orchestrate_rollout envOk "arn:aws:iam::123456789012:role/demo" egDoc
          .dryRun 0).2 := by
  constructor
  · rfl
  · decide

/-- C9 as amended: a DryRun invocation runs the same attach/detach protocol
as every other stage — whenever the attach succeeds there is exactly one
attach and one detach invocation — and DryRun only affects health
evaluation, which always passes, so with a working collector and detach the
outcome is a success carrying the collected metrics. -/
theorem dryrun_stage_attaches_like_any_stage
    (env : IamEnv) (role_arn : String) (doc : PolicyDocument) (now : Nat)
    (hp : env.putOk = true) :
    ((orchestrate_rollout env role_arn doc .dryRun now).2.filter
        CallEvent.isPut).length = 1 ∧
    ((orchestrate_rollout env role_arn doc .dryRun now).2.filter
        CallEvent.isDelete).length = 1 ∧
    (∀ metrics : List (String × ℚ), env.collectorResult = .ok metrics →
      env.deleteOk = true →
      (orchestrate_rollout env role_arn doc .dryRun now).1
        = .ok ⟨.dryRun, true, none, metrics⟩) := by
  refine ⟨?_, ?_, ?_⟩
  · cases hd : env.deleteOk <;>
      simp [orchestrate_rollout, stage_policy_version, delete_staged_policy, hp, hd,
        CallEvent.isPut]
  · cases hd : env.deleteOk <;>
      simp [orchestrate_rollout, stage_policy_version, delete_staged_policy, hp, hd,
        CallEvent.isDelete]
  · intro metrics hm hd
    simp [orchestrate_rollout, stage_policy_version, delete_staged_policy, hp, hd, hm,
      evaluate_stage]

/-- Witness for the amended C9 in the all-succeeding environment. -/
theorem dryrun_stage_attaches_like_any_stage_witness :
    ((orchestrate_rollout envOk "arn:aws:iam::123456789012:role/demo" egDoc
        .dryRun 2).2.filter CallEvent.isPut).length = 1 ∧
    ((orchestrate_rollout envOk "arn:aws:iam::123456789012:role/demo" egDoc
        .dryRun 2).2.filter CallEvent.isDelete).length = 1 ∧
    (orchestrate_rollout envOk "arn:aws:iam::123456789012:role/demo" egDoc
        .dryRun 2).1 = .ok ⟨.dryRun, true, none, [("error_rate", 0)]⟩ :=
  ⟨(dryrun_stage_attaches_like_any_stage envOk "arn:aws:iam::123456789012:role/demo"
      egDoc 2 rfl).1,
   (dryrun_stage_attaches_like_any_stage envOk "arn:aws:iam::123456789012:role/demo"
      egDoc 2 rfl).2.1,
   (dryrun_stage_attaches_like_any_stage envOk "arn:aws:iam::123456789012:role/demo"
      egDoc 2 rfl).2.2 [("error_rate", 0)] rfl rfl⟩
